import Mathlib

/-!
Verification of the `GlobalEntropy` wrapper from `bevy_rand` (src/resource.rs).

The wrapper is generic over an underlying generator algorithm
`R: SeedableEntropySource` (a capability set: next_u32 / next_u64 /
fill_bytes / try_fill_bytes / from_seed).  We embed that capability set as a
structure `RngAlgo` of pure state-passing operations: machine integers are
`Nat` reduced mod `2^32` / `2^64` where overflow matters, byte buffers are
`List Nat`, and the fallible fill returns an `Except` result together with
the post-state (matching `&mut self` receivers in Rust).
-/

/-- Error code standing for `rand_core::Error`. -/
abbrev RandError := Nat

/-- The generator capability set required of a wrapped algorithm
(`SeedableEntropySource` ≈ `RngCore + SeedableRng`): produce the next 32-bit
word, the next 64-bit word, fill `n` bytes infallibly, attempt to fill `n`
bytes fallibly, and construct deterministically from seed bytes.  Every
operation returns the produced output together with the advanced state. -/
structure RngAlgo where
  State : Type
  seedLen : Nat
  from_seed : List Nat → State
  next_u32 : State → Nat × State
  next_u64 : State → Nat × State
  fill_bytes : State → Nat → List Nat × State
  try_fill_bytes : State → Nat → (Except RandError (List Nat)) × State

/-- The wrapper `GlobalEntropy<R>`: a single-field newtype wrapping one generator value
(`pub struct GlobalEntropy<R: SeedableEntropySource>(R);`).  Equality of
wrappers is exact equality of the contained state. -/
structure GlobalEntropy (A : RngAlgo) where
  rng : A.State

/-- Embeds `GlobalEntropy::new(rng)`: wraps an already-constructed generator value
verbatim. -/
def GlobalEntropy.new (A : RngAlgo) (rng : A.State) : GlobalEntropy A :=
  ⟨rng⟩

/-- Embeds `GlobalEntropy::reseed(&mut self, seed)`: `self.0 = R::from_seed(seed)` —
overwrites the contained generator wholesale. -/
def GlobalEntropy.reseed {A : RngAlgo} (_g : GlobalEntropy A) (seed : List Nat) :
    GlobalEntropy A :=
  ⟨A.from_seed seed⟩

/-- Embeds `SeedableRng::from_seed` for the wrapper:
`Self::new(R::from_seed(seed))`. -/
def GlobalEntropy.fromSeed (A : RngAlgo) (seed : List Nat) : GlobalEntropy A :=
  GlobalEntropy.new A (A.from_seed seed)

/-- Embeds `RngCore::next_u32` for the wrapper: `self.0.next_u32()`. -/
def GlobalEntropy.next_u32 {A : RngAlgo} (g : GlobalEntropy A) :
    Nat × GlobalEntropy A :=
  ((A.next_u32 g.rng).1, ⟨(A.next_u32 g.rng).2⟩)

/-- Embeds `RngCore::next_u64` for the wrapper: `self.0.next_u64()`. -/
def GlobalEntropy.next_u64 {A : RngAlgo} (g : GlobalEntropy A) :
    Nat × GlobalEntropy A :=
  ((A.next_u64 g.rng).1, ⟨(A.next_u64 g.rng).2⟩)

/-- Embeds `RngCore::fill_bytes` for the wrapper: `self.0.fill_bytes(dest)`. -/
def GlobalEntropy.fill_bytes {A : RngAlgo} (g : GlobalEntropy A) (n : Nat) :
    List Nat × GlobalEntropy A :=
  ((A.fill_bytes g.rng n).1, ⟨(A.fill_bytes g.rng n).2⟩)

/-- Embeds `RngCore::try_fill_bytes` for the wrapper: `self.0.try_fill_bytes(dest)`. -/
def GlobalEntropy.try_fill_bytes {A : RngAlgo} (g : GlobalEntropy A) (n : Nat) :
    (Except RandError (List Nat)) × GlobalEntropy A :=
  ((A.try_fill_bytes g.rng n).1, ⟨(A.try_fill_bytes g.rng n).2⟩)

/-- The entropy bootstrap collaborator's interface: fill a buffer of a given
length with bytes.  Only the interface is consumed by this crate. -/
structure EntropySource where
  fill : Nat → List Nat

/-- Modelled from the spec: `ThreadLocalEntropy::new()` (in
`crate::thread_local_entropy`, not under src/) acquires the per-thread,
OS-seeded entropy collaborator and panics if `getrandom` cannot provide
secure entropy.  We model its availability as an `Option EntropySource`:
`none` means the collaborator cannot supply secure randomness (the panic /
abort path), `some src` means it is available and fills buffers via
`src.fill`. -/
def threadLocalEntropyNew (avail : Option EntropySource) : Option EntropySource :=
  avail

/-- Embeds `SeedableRng::from_entropy` for the wrapper: `seed = Seed::default()`,
then `ThreadLocalEntropy::new().fill_bytes(seed.as_mut())`, then
`Self::from_seed(seed)`.  The result is `none` exactly when the collaborator
acquisition panics, in which case no wrapper value is ever produced. -/
def GlobalEntropy.from_entropy (A : RngAlgo) (avail : Option EntropySource) :
    Option (GlobalEntropy A) :=
  match threadLocalEntropyNew avail with
  | none => none
  | some src => some (GlobalEntropy.fromSeed A (src.fill A.seedLen))

/-- Embeds `impl Default for GlobalEntropy`: `Self::from_entropy()`. -/
def GlobalEntropy.defaultCtor (A : RngAlgo) (avail : Option EntropySource) :
    Option (GlobalEntropy A) :=
  GlobalEntropy.from_entropy A avail

/-- Embeds `SeedableRng::from_rng` (the rand_core-provided default implementation
used by the wrapper): `seed = Seed::default(); rng.try_fill_bytes(seed)?;
Ok(Self::from_seed(seed))`.  The source is advanced regardless of success. -/
def GlobalEntropy.from_rng (A : RngAlgo) (src : A.State) :
    (Except RandError (GlobalEntropy A)) × A.State :=
  match A.try_fill_bytes src A.seedLen with
  | (Except.ok bytes, src') => (Except.ok (GlobalEntropy.fromSeed A bytes), src')
  | (Except.error e, src') => (Except.error e, src')

/-- Embeds `impl From<&mut R> for GlobalEntropy<R>`:
`Self::from_rng(value).unwrap()` — panics (modelled as `none`) when
`from_rng` returns an error. -/
def GlobalEntropy.fromMutRef (A : RngAlgo) (src : A.State) :
    Option (GlobalEntropy A × A.State) :=
  match GlobalEntropy.from_rng A src with
  | (Except.ok g, src') => some (g, src')
  | (Except.error _, _) => none

/-- One output call on the wrapper (the wrapper's mutation/output surface). -/
inductive RngOp where
  | u32 : RngOp
  | u64 : RngOp
  | fill : Nat → RngOp
  | tryFill : Nat → RngOp

/-- Run a finite sequence of output calls on the wrapper, keeping the final
wrapper state. -/
def GlobalEntropy.runOps {A : RngAlgo} (g : GlobalEntropy A) :
    List RngOp → GlobalEntropy A
  | [] => g
  | RngOp.u32 :: rest => GlobalEntropy.runOps (g.next_u32).2 rest
  | RngOp.u64 :: rest => GlobalEntropy.runOps (g.next_u64).2 rest
  | RngOp.fill n :: rest => GlobalEntropy.runOps (g.fill_bytes n).2 rest
  | RngOp.tryFill n :: rest => GlobalEntropy.runOps (g.try_fill_bytes n).2 rest

/-- The sequence of the next `n` `next_u32` outputs of a wrapper. -/
def GlobalEntropy.u32Trace {A : RngAlgo} (g : GlobalEntropy A) : Nat → List Nat
  | 0 => []
  | n + 1 => (g.next_u32).1 :: GlobalEntropy.u32Trace (g.next_u32).2 n

/-!
Concrete algorithm instance.  The tests instantiate the wrapper at
`bevy_prng::ChaCha8Rng`, whose implementation is part of this repository but
not under src/, so it is modelled from the spec below.
-/

/-- Modelled from the spec: the state of the counter-based stream generator
wrapped by `bevy_prng::ChaCha8Rng` (not under src/) — "an opaque,
algorithm-specific state blob (e.g., seed material, stream/lane selector,
position counter)", persisted as
`{seed: [u8; N], stream_selector: integer, position_counter: integer}`. -/
structure CounterState where
  seed : List Nat
  stream : Nat
  word_pos : Nat
deriving DecidableEq

/-- The 32-bit word such a generator produces at its current position: an
algorithm-specific pure function of the seed, the stream selector and the
position, reduced mod `2^32`.  The parameter `out` abstracts the cipher's
block function, which the spec leaves opaque. -/
def counterWord (out : List Nat → Nat → Nat → Nat) (s : CounterState) : Nat :=
  out s.seed s.stream s.word_pos % 2 ^ 32

/-- Produce `k` consecutive 32-bit words, advancing the position counter by
one per word. -/
def counterWords (out : List Nat → Nat → Nat → Nat) (s : CounterState) :
    Nat → List Nat × CounterState
  | 0 => ([], s)
  | k + 1 =>
    let w := counterWord out s
    let rest := counterWords out { s with word_pos := s.word_pos + 1 } k
    (w :: rest.1, rest.2)

/-- Serialize a list of 32-bit words to little-endian bytes. -/
def wordsToBytes : List Nat → List Nat
  | [] => []
  | w :: ws =>
    w % 256 :: w / 2 ^ 8 % 256 :: w / 2 ^ 16 % 256 :: w / 2 ^ 24 % 256 ::
      wordsToBytes ws

/-- Fill `n` bytes of output: consume `⌈n/4⌉` words and keep the first `n`
bytes of their little-endian serialization ("position advanced by every
output call"). -/
def counterFill (out : List Nat → Nat → Nat → Nat) (s : CounterState) (n : Nat) :
    List Nat × CounterState :=
  let r := counterWords out s ((n + 3) / 4)
  ((wordsToBytes r.1).take n, r.2)

/-- Modelled from the spec: the counter-based stream generator behind
`bevy_prng::ChaCha8Rng` (not under src/) as an instance of the generator
capability set.  Seed length 32; `from_seed` installs the seed with stream
selector 0 and position counter 0; every output call advances the position;
the fallible fill always succeeds for this algorithm. -/
def counterAlgo (out : List Nat → Nat → Nat → Nat) : RngAlgo where
  State := CounterState
  seedLen := 32
  from_seed := fun seed => ⟨seed, 0, 0⟩
  next_u32 := fun s => (counterWord out s, { s with word_pos := s.word_pos + 1 })
  next_u64 := fun s =>
    let lo := counterWord out s
    let s1 : CounterState := { s with word_pos := s.word_pos + 1 }
    let hi := counterWord out s1
    (lo + hi * 2 ^ 32, { s1 with word_pos := s1.word_pos + 1 })
  fill_bytes := fun s n => counterFill out s n
  try_fill_bytes := fun s n => (Except.ok (counterFill out s n).1, (counterFill out s n).2)

/-!
State-fidelity codec for the concrete algorithm.  Modelled from the spec:
the serialization of `GlobalEntropy<ChaCha8Rng>` (derived field-forwarding
serde code, reflected record `(((seed:(..),stream:0,word_pos:1)))`) encodes
the complete internal state as a structured record; decoding a malformed or
truncated snapshot fails with a structured error.
-/

/-- Encode the generator state as a flat record: the 32 seed bytes followed
by the stream selector and the position counter. -/
def encodeCounter (s : CounterState) : List Nat :=
  s.seed ++ [s.stream, s.word_pos]

/-- Decode a snapshot back into a generator state; a snapshot of the wrong
shape is rejected with a structured error. -/
def decodeCounter (l : List Nat) : Except String CounterState :=
  match l.drop 32 with
  | [st, wp] => Except.ok ⟨l.take 32, st, wp⟩
  | _ => Except.error "malformed snapshot"

/-- Encode a wrapper: serde's derive on the newtype forwards to the contained
generator state. -/
def encodeWrapper (out : List Nat → Nat → Nat → Nat)
    (g : GlobalEntropy (counterAlgo out)) : List Nat :=
  encodeCounter g.rng

/-- Decode a wrapper: decode the contained generator state and rewrap it. -/
def decodeWrapper (out : List Nat → Nat → Nat → Nat) (l : List Nat) :
    Except String (GlobalEntropy (counterAlgo out)) :=
  (decodeCounter l).map (fun s => GlobalEntropy.new (counterAlgo out) s)

/-- A degenerate but capability-complete instance used to instantiate the
generic wrapper in concrete tests: the block function is constantly zero. -/
def zeroOut : List Nat → Nat → Nat → Nat :=
  fun _ _ _ => 0

/-- A capability-complete instance whose fallible fill always reports error
code 1, used to instantiate the wrapper's error-propagation paths. -/
def failingAlgo : RngAlgo :=
  { counterAlgo zeroOut with
      try_fill_bytes := fun s _n => (Except.error 1, s) }

/-!
Helper lemmas about the concrete counter generator.
-/

/-- Producing `k` words yields exactly the block function sampled at the `k`
consecutive positions starting at the current one, and advances the position
counter by `k`. -/
theorem counterWords_spec (out : List Nat → Nat → Nat → Nat) :
    ∀ (k : Nat) (s : CounterState),
      counterWords out s k =
        ((List.range k).map
            (fun i => counterWord out { s with word_pos := s.word_pos + i }),
          { s with word_pos := s.word_pos + k })
  | 0, s => by
    simp [counterWords]
  | k + 1, s => by
    have ih := counterWords_spec out k { s with word_pos := s.word_pos + 1 }
    rw [List.range_succ_eq_map]
    simp only [counterWords, ih, List.map_cons, List.map_map, Prod.mk.injEq,
      List.cons.injEq]
    refine ⟨⟨rfl, ?_⟩, ?_⟩
    · apply List.map_congr_left
      intro i _
      have h : s.word_pos + 1 + i = s.word_pos + (i + 1) := by omega
      simp [Function.comp, h]
    · have h : s.word_pos + 1 + k = s.word_pos + (k + 1) := by omega
      simp [h]

/-- Output calls on the counter generator never change the seed field. -/
theorem runOps_seed (out : List Nat → Nat → Nat → Nat) :
    ∀ (ops : List RngOp) (g : GlobalEntropy (counterAlgo out)),
      ((GlobalEntropy.runOps g ops).rng).seed = (g.rng).seed
  | [], _ => rfl
  | RngOp.u32 :: rest, g => runOps_seed out rest (g.next_u32).2
  | RngOp.u64 :: rest, g => runOps_seed out rest (g.next_u64).2
  | RngOp.fill n :: rest, g => by
    have h := runOps_seed out rest (g.fill_bytes n).2
    rw [GlobalEntropy.runOps, h]
    show ((counterFill out g.rng n).2).seed = (g.rng).seed
    simp [counterFill, counterWords_spec]
  | RngOp.tryFill n :: rest, g => by
    have h := runOps_seed out rest (g.try_fill_bytes n).2
    rw [GlobalEntropy.runOps, h]
    show ((counterFill out g.rng n).2).seed = (g.rng).seed
    simp [counterFill, counterWords_spec]

/-- Decoding the encoding of a generator state with a well-formed (32-byte)
seed recovers the state exactly. -/
theorem decodeCounter_encodeCounter (st : CounterState)
    (h : st.seed.length = 32) :
    decodeCounter (encodeCounter st) = Except.ok st := by
  unfold decodeCounter encodeCounter
  rw [List.drop_left' h, List.take_left' h]

/-!
Claim theorems.
-/

/-- C1: Deterministic construction — for every seed `s`, two independent
constructions via `from_seed(s)` produce equal wrapper values whose
subsequent output calls (in particular `next_u32`, and any finite prefix of
the output stream) return identical values. -/
theorem c1_deterministic_construction (A : RngAlgo) (s : List Nat) :
    GlobalEntropy.fromSeed A s = GlobalEntropy.fromSeed A s ∧
    ((GlobalEntropy.fromSeed A s).next_u32).1 =
      ((GlobalEntropy.fromSeed A s).next_u32).1 ∧
    ∀ n : Nat,
      GlobalEntropy.u32Trace (GlobalEntropy.fromSeed A s) n =
        GlobalEntropy.u32Trace (GlobalEntropy.fromSeed A s) n :=
  ⟨rfl, rfl, fun _ => rfl⟩

/-- C2: Reseed discards history — after any finite sequence of output calls
on `g`, `g.reseed(s)` makes `g` equal to a freshly constructed
`from_seed(s)`, and every subsequent output equals the fresh wrapper's
output; no prior state is mixed in. -/
theorem c2_reseed_discards_history (A : RngAlgo) (g : GlobalEntropy A)
    (ops : List RngOp) (s : List Nat) :
    GlobalEntropy.reseed (GlobalEntropy.runOps g ops) s =
      GlobalEntropy.fromSeed A s ∧
    ∀ n : Nat,
      GlobalEntropy.u32Trace (GlobalEntropy.reseed (GlobalEntropy.runOps g ops) s) n =
        GlobalEntropy.u32Trace (GlobalEntropy.fromSeed A s) n :=
  ⟨rfl, fun _ => rfl⟩

/-- C4: Pure forwarding — each of `next_u32`, `next_u64`, `fill_bytes` and
`try_fill_bytes` on the wrapper returns exactly what the contained
generator's corresponding operation returns on the contained state, and
leaves the wrapper holding exactly the state that operation leaves behind. -/
theorem c4_pure_forwarding (A : RngAlgo) (g : GlobalEntropy A) (n : Nat) :
    ((g.next_u32).1 = (A.next_u32 g.rng).1 ∧
      ((g.next_u32).2).rng = (A.next_u32 g.rng).2) ∧
    ((g.next_u64).1 = (A.next_u64 g.rng).1 ∧
      ((g.next_u64).2).rng = (A.next_u64 g.rng).2) ∧
    ((g.fill_bytes n).1 = (A.fill_bytes g.rng n).1 ∧
      ((g.fill_bytes n).2).rng = (A.fill_bytes g.rng n).2) ∧
    ((g.try_fill_bytes n).1 = (A.try_fill_bytes g.rng n).1 ∧
      ((g.try_fill_bytes n).2).rng = (A.try_fill_bytes g.rng n).2) :=
  ⟨⟨rfl, rfl⟩, ⟨rfl, rfl⟩, ⟨rfl, rfl⟩, ⟨rfl, rfl⟩⟩

/-- C9: Default construction is non-deterministic bootstrap — `default()`
returns exactly the result of `from_entropy()` under every behaviour of the
entropy collaborator, and aborts exactly when `from_entropy()` aborts. -/
theorem c9_default_is_from_entropy (A : RngAlgo) (avail : Option EntropySource) :
    GlobalEntropy.defaultCtor A avail = GlobalEntropy.from_entropy A avail ∧
    (GlobalEntropy.defaultCtor A avail = none ↔
      GlobalEntropy.from_entropy A avail = none) :=
  ⟨rfl, Iff.rfl⟩

/-- C5: Fatal bootstrap failure — when the entropy collaborator cannot
supply secure randomness, `from_entropy()` returns no wrapper value at all;
and every wrapper it does return was built by `from_seed` on a fully filled
seed buffer obtained from an available collaborator (no fallback, no
partially-filled seed ever reaches an output operation). -/
theorem c5_fatal_bootstrap (A : RngAlgo) :
    GlobalEntropy.from_entropy A none = none ∧
    ∀ (avail : Option EntropySource) (g : GlobalEntropy A),
      GlobalEntropy.from_entropy A avail = some g →
        ∃ src, avail = some src ∧
          g = GlobalEntropy.fromSeed A (src.fill A.seedLen) := by
  refine ⟨rfl, ?_⟩
  intro avail g h
  cases avail with
  | none => exact absurd h (by simp [GlobalEntropy.from_entropy, threadLocalEntropyNew])
  | some src =>
    refine ⟨src, rfl, ?_⟩
    simp [GlobalEntropy.from_entropy, threadLocalEntropyNew] at h
    exact h.symm

/-- Witness for C5 at a concrete algorithm and collaborator. -/
theorem c5_fatal_bootstrap_witness :
    GlobalEntropy.from_entropy (counterAlgo zeroOut) none = none ∧
    ∃ src : EntropySource,
      (some ⟨fun n => List.replicate n 1⟩ : Option EntropySource) = some src ∧
      GlobalEntropy.fromSeed (counterAlgo zeroOut) (List.replicate 32 1) =
        GlobalEntropy.fromSeed (counterAlgo zeroOut)
          (src.fill (counterAlgo zeroOut).seedLen) :=
  ⟨(c5_fatal_bootstrap (counterAlgo zeroOut)).1,
    (c5_fatal_bootstrap (counterAlgo zeroOut)).2
      (some ⟨fun n => List.replicate n 1⟩)
      (GlobalEntropy.fromSeed (counterAlgo zeroOut) (List.replicate 32 1)) rfl⟩

/-- C8: Error propagation on fallible fill — `try_fill_bytes` returns the
contained generator's error unchanged when it fails and success when it
succeeds, while `next_u32`, `next_u64` and `fill_bytes` are total (always
produce a value and a successor state). -/
theorem c8_error_propagation (A : RngAlgo) (g : GlobalEntropy A) (n : Nat) :
    (g.try_fill_bytes n).1 = (A.try_fill_bytes g.rng n).1 ∧
    (∀ e : RandError, (A.try_fill_bytes g.rng n).1 = Except.error e →
      (g.try_fill_bytes n).1 = Except.error e) ∧
    (∀ bs : List Nat, (A.try_fill_bytes g.rng n).1 = Except.ok bs →
      (g.try_fill_bytes n).1 = Except.ok bs) ∧
    (∃ v g', g.next_u32 = (v, g')) ∧
    (∃ v g', g.next_u64 = (v, g')) ∧
    (∃ bs g', g.fill_bytes n = (bs, g')) :=
  ⟨rfl, fun _ h => h, fun _ h => h,
    ⟨_, _, rfl⟩, ⟨_, _, rfl⟩, ⟨_, _, rfl⟩⟩

/-- Witness for C8 at a concrete algorithm whose fallible fill fails. -/
theorem c8_error_propagation_witness :
    (GlobalEntropy.try_fill_bytes (A := failingAlgo) ⟨⟨[], 0, 0⟩⟩ 5).1 =
      Except.error 1 :=
  (c8_error_propagation failingAlgo ⟨⟨[], 0, 0⟩⟩ 5).2.1 1 rfl

/-- C3: Serialization round-trip fidelity — after any number of output calls
on a wrapper (over the modelled counter generator), decoding the encoding
yields a wrapper equal to the original, and every decoded wrapper produces
the same `next_u32` sequence as the original at the same point in its call
sequence. -/
theorem c3_roundtrip_fidelity (out : List Nat → Nat → Nat → Nat)
    (seed0 : List Nat) (ops : List RngOp) (h : seed0.length = 32) :
    decodeWrapper out (encodeWrapper out
        (GlobalEntropy.runOps (GlobalEntropy.fromSeed (counterAlgo out) seed0) ops))
      = Except.ok
          (GlobalEntropy.runOps (GlobalEntropy.fromSeed (counterAlgo out) seed0) ops) ∧
    ∀ (n : Nat) (v2 : GlobalEntropy (counterAlgo out)),
      decodeWrapper out (encodeWrapper out
          (GlobalEntropy.runOps (GlobalEntropy.fromSeed (counterAlgo out) seed0) ops))
        = Except.ok v2 →
      GlobalEntropy.u32Trace v2 n =
        GlobalEntropy.u32Trace
          (GlobalEntropy.runOps (GlobalEntropy.fromSeed (counterAlgo out) seed0) ops) n := by
  have hseed :
      (((GlobalEntropy.runOps (GlobalEntropy.fromSeed (counterAlgo out) seed0) ops)).rng).seed.length = 32 := by
    rw [runOps_seed]
    exact h
  have hdec :
      decodeWrapper out (encodeWrapper out
          (GlobalEntropy.runOps (GlobalEntropy.fromSeed (counterAlgo out) seed0) ops))
        = Except.ok
            (GlobalEntropy.runOps (GlobalEntropy.fromSeed (counterAlgo out) seed0) ops) := by
    unfold decodeWrapper encodeWrapper
    rw [decodeCounter_encodeCounter _ hseed]
    rfl
  refine ⟨hdec, ?_⟩
  intro n v2 h2
  rw [hdec] at h2
  simp only [Except.ok.injEq] at h2
  rw [h2]

/-- Witness for C3 at the constant block function, a 32-byte seed of 7s and
one output call. -/
theorem c3_roundtrip_fidelity_witness :
    decodeWrapper zeroOut (encodeWrapper zeroOut
        (GlobalEntropy.runOps
          (GlobalEntropy.fromSeed (counterAlgo zeroOut) (List.replicate 32 7))
          [RngOp.u32]))
      = Except.ok
          (GlobalEntropy.runOps
            (GlobalEntropy.fromSeed (counterAlgo zeroOut) (List.replicate 32 7))
            [RngOp.u32]) :=
  (c3_roundtrip_fidelity zeroOut (List.replicate 32 7) [RngOp.u32] (by decide)).1

/-- C7: Concrete serialization vector — from a seed of 32 bytes of value 7,
after one `next_u32` call the snapshot's position counter is 1 and its
stream selector is 0; decoding that snapshot and calling `next_u32` on the
decoded wrapper yields the same value as calling `next_u32` again on the
original. -/
theorem c7_concrete_vector (out : List Nat → Nat → Nat → Nat) :
    ((((GlobalEntropy.fromSeed (counterAlgo out) (List.replicate 32 7)).next_u32).2).rng).word_pos = 1 ∧
    ((((GlobalEntropy.fromSeed (counterAlgo out) (List.replicate 32 7)).next_u32).2).rng).stream = 0 ∧
    decodeWrapper out (encodeWrapper out
        ((GlobalEntropy.fromSeed (counterAlgo out) (List.replicate 32 7)).next_u32).2)
      = Except.ok
          ((GlobalEntropy.fromSeed (counterAlgo out) (List.replicate 32 7)).next_u32).2 ∧
    (decodeWrapper out (encodeWrapper out
        ((GlobalEntropy.fromSeed (counterAlgo out) (List.replicate 32 7)).next_u32).2)).map
        (fun v2 => (v2.next_u32).1)
      = Except.ok
          (((((GlobalEntropy.fromSeed (counterAlgo out) (List.replicate 32 7)).next_u32).2).next_u32).1) := by
  have hdec :
      decodeWrapper out (encodeWrapper out
          ((GlobalEntropy.fromSeed (counterAlgo out) (List.replicate 32 7)).next_u32).2)
        = Except.ok
            ((GlobalEntropy.fromSeed (counterAlgo out) (List.replicate 32 7)).next_u32).2 := by
    unfold decodeWrapper encodeWrapper
    rw [decodeCounter_encodeCounter
      ((((GlobalEntropy.fromSeed (counterAlgo out) (List.replicate 32 7)).next_u32).2).rng) rfl]
    rfl
  refine ⟨rfl, rfl, hdec, ?_⟩
  rw [hdec]
  rfl

/-- C6 as stated fails on the code: with a degenerate (constant-output)
source generator, two sequential spawns yield children with identical seed
material — the claim that the children's seed material differs is false at
this input. -/
theorem c6_spawn_counterexample :
    ∃ (c1 c2 : GlobalEntropy (counterAlgo zeroOut)) (s1 s2 : CounterState),
      GlobalEntropy.fromMutRef (counterAlgo zeroOut) ⟨List.replicate 32 7, 0, 0⟩
        = some (c1, s1) ∧
      GlobalEntropy.fromMutRef (counterAlgo zeroOut) s1 = some (c2, s2) ∧
      c1 = c2 ∧ ((c1.rng).seed = (c2.rng).seed) := by
  refine ⟨_, _, _, _, rfl, rfl, rfl, rfl⟩

/-- C6 amended: each spawn draws exactly the wrapped algorithm's seed-length
(32 bytes, i.e. 8 words) from the source and performs `from_seed`; the two
children are seeded from disjoint consecutive position windows of the
source (positions `p..p+7` then `p+8..p+15`, so no output is reused), and
the source's position after both spawns has advanced by the sum of the
amounts consumed (`8 + 8` words); equality of the two children's seed
material is not excluded for degenerate sources. -/
theorem c6_spawn_sequential_draws (out : List Nat → Nat → Nat → Nat)
    (src : CounterState) :
    GlobalEntropy.fromMutRef (counterAlgo out) src
      = some
          (GlobalEntropy.fromSeed (counterAlgo out)
            ((wordsToBytes ((List.range 8).map
                (fun i => counterWord out { src with word_pos := src.word_pos + i }))).take 32),
            { src with word_pos := src.word_pos + 8 }) ∧
    GlobalEntropy.fromMutRef (counterAlgo out) { src with word_pos := src.word_pos + 8 }
      = some
          (GlobalEntropy.fromSeed (counterAlgo out)
            ((wordsToBytes ((List.range 8).map
                (fun i => counterWord out { src with word_pos := src.word_pos + 8 + i }))).take 32),
            { src with word_pos := src.word_pos + (8 + 8) }) := by
  constructor
  · simp [GlobalEntropy.fromMutRef, GlobalEntropy.from_rng, counterAlgo,
      counterFill, counterWords_spec]
  · simp [GlobalEntropy.fromMutRef, GlobalEntropy.from_rng, counterAlgo,
      counterFill, counterWords_spec, Nat.add_assoc]

/-- C10: Implicit panic path in spawn — the `From<&mut R>` conversion panics
(returns no wrapper) exactly when drawing seed bytes from the source fails,
and under a successful fill it always returns the wrapper built from the
drawn bytes together with the advanced source state. -/
theorem c10_spawn_panic_path (A : RngAlgo) (src : A.State) :
    (∀ e : RandError, (A.try_fill_bytes src A.seedLen).1 = Except.error e →
      GlobalEntropy.fromMutRef A src = none) ∧
    (∀ bs : List Nat, (A.try_fill_bytes src A.seedLen).1 = Except.ok bs →
      GlobalEntropy.fromMutRef A src =
        some (GlobalEntropy.fromSeed A bs, (A.try_fill_bytes src A.seedLen).2)) := by
  constructor
  · intro e h
    rcases hA : A.try_fill_bytes src A.seedLen with ⟨r, s'⟩
    rw [hA] at h
    simp only at h
    simp [GlobalEntropy.fromMutRef, GlobalEntropy.from_rng, hA, h]
  · intro bs h
    rcases hA : A.try_fill_bytes src A.seedLen with ⟨r, s'⟩
    rw [hA] at h
    simp only at h
    simp [GlobalEntropy.fromMutRef, GlobalEntropy.from_rng, hA, h]

/-- Witness for C10: the panic branch at a concrete always-failing source,
and the success branch at the concrete counter generator. -/
theorem c10_spawn_panic_path_witness :
    GlobalEntropy.fromMutRef failingAlgo ⟨[], 0, 0⟩ = none ∧
    GlobalEntropy.fromMutRef (counterAlgo zeroOut) ⟨[], 0, 0⟩ =
      some (GlobalEntropy.fromSeed (counterAlgo zeroOut) (List.replicate 32 0),
        ⟨[], 0, 8⟩) :=
  ⟨(c10_spawn_panic_path failingAlgo ⟨[], 0, 0⟩).1 1 rfl,
    (c10_spawn_panic_path (counterAlgo zeroOut) ⟨[], 0, 0⟩).2
      (List.replicate 32 0) rfl⟩
